import Mathlib

/-!
Verification of the `ppt2pdf` conversion orchestrator.

The embedding models the two source units of `src/ppt2pdf/converter.py`
(`find_soffice`, `_build_command`, `convert`) and the CLI entry point of
`src/ppt2pdf/cli.py` (`main`).  Filesystem paths are absolute component
lists; the filesystem is an explicit state (an association list of regular
files plus a list of directories); the external `soffice` process and the
path-resolution primitives of `pathlib` are supplied by an environment
record, so that each theorem quantifies over every possible behaviour of
the outside world.
-/

set_option autoImplicit false

namespace Ppt2Pdf

/-- An absolute filesystem path, as its list of components
(`/tmp/slides.pptx` is `["tmp", "slides.pptx"]`). -/
abbrev FsPath := List String

/-- Render a path the way `str(Path(...))` does for an absolute path. -/
def pathToString (p : FsPath) : String :=
  "/" ++ String.intercalate ("/") p

/-- `str.rfind('.')`: index of the last dot of the name, if any. -/
def rfindDot (cs : List Char) : Option Nat :=
  ((List.range cs.length).filter (fun i => cs.getD i ' ' == '.')).getLast?

/-- `PurePath.stem` of `pathlib`: the final component without its last
suffix; the suffix only counts when its dot is neither the first nor the
last character of the name. -/
def pyStem (name : String) : String :=
  match rfindDot name.data with
  | some i =>
      if 0 < i ∧ i + 1 < name.data.length then String.mk (name.data.take i) else name
  | none => name

/-- The filesystem: regular files with their byte content, and directories. -/
structure FS where
  files : List (FsPath × String)
  dirs : List FsPath
  deriving Repr, DecidableEq

/-- First-match lookup in an association list of files. -/
def findContent (p : FsPath) : List (FsPath × String) → Option String
  | [] => none
  | (q, c) :: rest => if q = p then some c else findContent p rest

/-- Remove every entry for `p`. -/
def eraseFile (p : FsPath) : List (FsPath × String) → List (FsPath × String)
  | [] => []
  | (q, c) :: rest => if q = p then eraseFile p rest else (q, c) :: eraseFile p rest

/-- Content of the regular file at `p`, if one exists. -/
def FS.fileContent (fs : FS) (p : FsPath) : Option String :=
  findContent p fs.files

/-- `Path.is_file()`: `p` names an existing regular file. -/
def FS.isFile (fs : FS) (p : FsPath) : Bool :=
  (fs.fileContent p).isSome

/-- `Path.exists()`: `p` names an existing regular file or directory. -/
def FS.pathExists (fs : FS) (p : FsPath) : Bool :=
  fs.isFile p || fs.dirs.contains p

/-- `Path.mkdir(parents=True, exist_ok=True)`: record the directory and all
of its ancestors. -/
def FS.mkdirParents (fs : FS) (d : FsPath) : FS :=
  { fs with dirs := ((List.range (d.length + 1)).map (fun n => d.take n)) ++ fs.dirs }

/-- Write (or overwrite) the regular file at `p` with content `c`. -/
def FS.writeFile (fs : FS) (p : FsPath) (c : String) : FS :=
  { fs with files := (p, c) :: eraseFile p fs.files }

/-- `Path.replace(dst)`: move the file at `src` to `dst`, overwriting any
existing file there.  A missing source leaves the filesystem unchanged
(the orchestrator only renames files it has just checked to exist). -/
def FS.rename (fs : FS) (src dst : FsPath) : FS :=
  match fs.fileContent src with
  | some c => FS.writeFile { fs with files := eraseFile src fs.files } dst c
  | none => fs

/-- Outcome of one `subprocess.run` invocation of the external converter. -/
inductive RunRes where
  /-- Exit status zero, with captured stdout and stderr. -/
  | exitOk (stdout stderr : String)
  /-- Non-zero exit status (`CalledProcessError`). -/
  | exitErr (returncode : Int) (stdout stderr : String)
  /-- The wall-clock timeout expired (`TimeoutExpired`). -/
  | timedOut
  deriving Repr, DecidableEq

/-- The outside world as the orchestrator sees it: `pathlib` resolution,
`shutil.which`, and the external process. -/
structure Env where
  /-- `Path(p).expanduser().resolve()`. -/
  resolveUser : FsPath → FsPath
  /-- `Path(p).resolve()` without home expansion (used by the rename step). -/
  resolveNoUser : FsPath → FsPath
  /-- `shutil.which("soffice")`. -/
  whichSoffice : Option FsPath
  /-- `subprocess.run(command)`: the process may change the filesystem. -/
  run : List String → FS → RunRes × FS

/-- The closed error taxonomy of the converter:
`FileNotFoundError`, `ValueError`, `LibreOfficeNotFoundError`, and the two
`ConversionError` situations. -/
inductive ConvError where
  | inputNotFound (msg : String)
  | invalidArgs (msg : String)
  | sofficeNotFound (msg : String)
  | conversionTimedOut (msg : String)
  | conversionFailed (msg : String)
  deriving Repr, DecidableEq

/-- `ConversionOptions` of `converter.py`. -/
structure ConversionOptions where
  soffice_path : FsPath
  timeout : Option Nat := none
  extra_args : Option (List String) := none
  deriving Repr, DecidableEq

/-- `ConversionResult` of `converter.py`. -/
structure ConversionResult where
  input_path : FsPath
  output_path : FsPath
  command : List String
  stdout : String
  stderr : String
  deriving Repr, DecidableEq

deriving instance DecidableEq for Except

/-- What one call to `convert` produces: the returned value or raised
error, the final filesystem, and the list of commands that were spawned. -/
structure ConvertOut where
  result : Except ConvError ConversionResult
  fs : FS
  spawned : List (List String)
  deriving Repr, DecidableEq

/-- Remediation message of `LibreOfficeNotFoundError`. -/
def sofficeNotFoundMsg : String :=
  "LibreOffice 'soffice' executable not found. Please install LibreOffice " ++
  "and ensure 'soffice' is available on your PATH."

/-- `find_soffice` of `converter.py`: a caller-supplied candidate that
resolves to an existing regular file is returned at once; otherwise the
`PATH` search result is used; otherwise `LibreOfficeNotFoundError`. -/
def find_soffice (env : Env) (fs : FS) (candidate : Option FsPath) : Except ConvError FsPath :=
  let fallback : Except ConvError FsPath :=
    match env.whichSoffice with
    | some resolved => .ok resolved
    | none => .error (.sofficeNotFound sofficeNotFoundMsg)
  match candidate with
  | some c =>
      let path := env.resolveUser c
      if fs.isFile path then .ok path else fallback
  | none => fallback

/-- `_build_command` of `converter.py`: the base command, with any extra
arguments spliced in at index 1 (`command[1:1] = list(extra_args)`),
skipped when the iterable is absent or empty (Python truthiness). -/
def _build_command (options : ConversionOptions) (input_path : FsPath)
    (output_dir : FsPath) : List String :=
  let command : List String :=
    [pathToString options.soffice_path,
     "--headless",
     "--nologo",
     "--nofirststartwizard",
     "--convert-to",
     "pdf",
     "--outdir",
     pathToString output_dir,
     pathToString input_path]
  match options.extra_args with
  | some extra => if extra = [] then command else command.take 1 ++ extra ++ command.drop 1
  | none => command

/-- `input_path.stem + ".pdf"`. -/
def defaultPdfName (input_path : FsPath) : String :=
  pyStem (input_path.getLastD ("")) ++ ".pdf"

/-- The working output directory of `convert`: the explicit output path's
parent when one is given, else the resolved caller-supplied output
directory, else the input's own directory. -/
def workingDir (env : Env) (input_path : FsPath)
    (output_file output_dir : Option FsPath) : FsPath :=
  match output_file with
  | some of => (env.resolveUser of).dropLast
  | none =>
      match output_dir with
      | some od => env.resolveUser od
      | none => input_path.dropLast

/-- The output path `convert` plans before running the process: the
resolved explicit output path when one is given, else the working
directory joined with the input's stem plus `.pdf`. -/
def plannedOutputPath (env : Env) (input_path : FsPath)
    (output_file output_dir : Option FsPath) : FsPath :=
  match output_file with
  | some of => env.resolveUser of
  | none =>
      workingDir env input_path output_file output_dir ++ [defaultPdfName input_path]

/-- Command line joined with spaces, as in the error f-string. -/
def joinSpace (command : List String) : String :=
  String.intercalate (" ") command

/-- Error message of the non-zero-exit branch of `convert`. -/
def conversionFailedMsg (command : List String) (stdout stderr : String) : String :=
  "LibreOffice failed to convert the presentation.\n" ++
  "Command: " ++ joinSpace command ++ "\n" ++
  "Stdout: " ++ stdout ++ "\n" ++
  "Stderr: " ++ stderr

/-- Error message of the success-but-missing-output branch of `convert`. -/
def missingPdfMsg : String :=
  "LibreOffice reported success but the expected PDF was not created."

/-- The tail of `convert` after the process has exited with status zero:
locate the produced PDF (planned path first, the default-named fallback
second, else `ConversionError`), then rename it to the explicit output
path when one was requested and differs. -/
def finishConvert (env : Env) (fs2 : FS) (input_path : FsPath)
    (output_file : Option FsPath) (target_dir output_path0 : FsPath)
    (command : List String) (stdout stderr : String) : ConvertOut :=
  let located : Except ConvError FsPath :=
    if fs2.pathExists output_path0 then .ok output_path0
    else
      let candidate := target_dir ++ [defaultPdfName input_path]
      if fs2.pathExists candidate then .ok candidate
      else .error (.conversionFailed missingPdfMsg)
  match located with
  | .error e => { result := .error e, fs := fs2, spawned := [command] }
  | .ok produced =>
      match output_file with
      | some of =>
          let ofr := env.resolveNoUser of
          if produced ≠ ofr then
            { result := .ok ⟨input_path, ofr, command, stdout, stderr⟩,
              fs := fs2.rename produced ofr,
              spawned := [command] }
          else
            { result := .ok ⟨input_path, produced, command, stdout, stderr⟩,
              fs := fs2,
              spawned := [command] }
      | none =>
          { result := .ok ⟨input_path, produced, command, stdout, stderr⟩,
            fs := fs2,
            spawned := [command] }

/-- `convert` of `converter.py`.  Keyword-only arguments are positional
here, in source order. -/
def convert (env : Env) (fs0 : FS) (input_file : FsPath)
    (output_file : Option FsPath) (output_dir : Option FsPath)
    (soffice_path : Option FsPath) (timeout : Option Nat)
    (extra_args : Option (List String)) : ConvertOut :=
  let input_path := env.resolveUser input_file
  if fs0.pathExists input_path = false then
    { result := .error (.inputNotFound ("Input file does not exist: " ++ pathToString input_path)),
      fs := fs0,
      spawned := [] }
  else if output_file.isSome && output_dir.isSome then
    { result := .error (.invalidArgs ("Specify either output_file or output_dir, not both.")),
      fs := fs0,
      spawned := [] }
  else
    match find_soffice env fs0 soffice_path with
    | .error e => { result := .error e, fs := fs0, spawned := [] }
    | .ok soffice =>
        let target_dir := workingDir env input_path output_file output_dir
        let output_path0 := plannedOutputPath env input_path output_file output_dir
        let fs1 := fs0.mkdirParents target_dir
        let options : ConversionOptions :=
          { soffice_path := soffice, timeout := timeout, extra_args := extra_args }
        let command := _build_command options input_path target_dir
        match env.run command fs1 with
        | (.timedOut, fs2) =>
            { result := .error (.conversionTimedOut
                ("LibreOffice timed out while converting the presentation.")),
              fs := fs2,
              spawned := [command] }
        | (.exitErr _ stdout stderr, fs2) =>
            { result := .error (.conversionFailed (conversionFailedMsg command stdout stderr)),
              fs := fs2,
              spawned := [command] }
        | (.exitOk stdout stderr, fs2) =>
            finishConvert env fs2 input_path output_file target_dir output_path0
              command stdout stderr

/-- `main` of `cli.py`, after argument parsing: call `convert`; on success
print the output path to stdout and return 0; on any raised failure
`parser.error` prints to stderr and exits with status 2.  The second
component is what reaches standard output. -/
def main (env : Env) (fs : FS) (input : FsPath) (output : Option FsPath)
    (outdir : Option FsPath) (soffice : Option FsPath) (timeout : Option Nat)
    (extra_args : Option (List String)) : Int × Option String :=
  match (convert env fs input output outdir soffice timeout extra_args).result with
  | .ok result => (0, some (pathToString result.output_path))
  | .error _ => (2, none)

/-! ### Helper lemmas -/

theorem string_append_assoc (a b c : String) : a ++ b ++ c = a ++ (b ++ c) := by
  cases a with | mk la => cases b with | mk lb => cases c with | mk lc =>
  show String.mk (la ++ lb ++ lc) = String.mk (la ++ (lb ++ lc))
  rw [List.append_assoc]

theorem build_command_eq (options : ConversionOptions) (input_path output_dir : FsPath) :
    _build_command options input_path output_dir =
      [pathToString options.soffice_path] ++ options.extra_args.getD [] ++
      ["--headless", "--nologo", "--nofirststartwizard", "--convert-to", "pdf",
       "--outdir", pathToString output_dir, pathToString input_path] := by
  cases h : options.extra_args with
  | none => simp [_build_command, h]
  | some extra => cases extra <;> simp [_build_command, h]

theorem headless_mem_build_command (options : ConversionOptions)
    (input_path output_dir : FsPath) :
    "--headless" ∈ _build_command options input_path output_dir := by
  rw [build_command_eq]
  simp

/-! ### Concrete fixtures for witnesses and counterexamples -/

/-- A filesystem holding just `/tmp/slides.pptx`. -/
def sampleFs : FS := ⟨[(["tmp", "slides.pptx"], "dummy")], []⟩

/-- The sample input path `/tmp/slides.pptx`. -/
def sampleInput : FsPath := ["tmp", "slides.pptx"]

/-- An environment with trivial resolution, `soffice` on the `PATH`, and a
converter process that writes `/tmp/out/slides.pdf`. -/
def envStubOk : Env :=
  ⟨id, id, some ["usr", "bin", "soffice"],
   fun _ fs => (.exitOk ("ok") (""), fs.writeFile ["tmp", "out", "slides.pdf"] "pdf")⟩

/-- An environment in which `soffice` is nowhere to be found and the
process is never reached. -/
def envNoSoffice : Env :=
  ⟨id, id, none, fun _ fs => (.exitOk ("") (""), fs)⟩

/-- An environment whose converter process exits with status 1 and stderr
`boom`, writing nothing. -/
def envFails : Env :=
  ⟨id, id, some ["usr", "bin", "soffice"], fun _ fs => (.exitErr 1 "" "boom", fs)⟩

/-! ### Claims -/

/-- C5: for every resolved executable, input path, working output directory
and list of extra arguments, the command array is exactly the executable,
then the caller-supplied extra arguments, then `--headless`, `--nologo`,
`--nofirststartwizard`, `--convert-to`, `pdf`, `--outdir`, the working
directory, and the absolute input path. -/
theorem build_command_exact (options : ConversionOptions) (input_path output_dir : FsPath) :
    _build_command options input_path output_dir =
      [pathToString options.soffice_path] ++ options.extra_args.getD [] ++
      ["--headless", "--nologo", "--nofirststartwizard", "--convert-to", "pdf",
       "--outdir", pathToString output_dir, pathToString input_path] :=
  build_command_eq options input_path output_dir

/-- C6: a supplied candidate whose user-expanded resolved path is an
existing regular file is returned immediately with no fallback; otherwise
the `PATH` search result decides; and, provided the `PATH` search only
reports existing files (the `shutil.which` contract), every returned
value is a path to an existing file. -/
theorem find_soffice_locator (env : Env) (fs : FS) (candidate : Option FsPath)
    (hwhich : ∀ p, env.whichSoffice = some p → fs.isFile p = true) :
    (∀ c, candidate = some c → fs.isFile (env.resolveUser c) = true →
        find_soffice env fs candidate = .ok (env.resolveUser c)) ∧
    ((∀ c, candidate = some c → fs.isFile (env.resolveUser c) = false) →
        find_soffice env fs candidate =
          (match env.whichSoffice with
           | some resolved => .ok resolved
           | none => .error (.sofficeNotFound sofficeNotFoundMsg))) ∧
    (∀ p, find_soffice env fs candidate = .ok p → fs.isFile p = true) := by
  refine ⟨?_, ?_, ?_⟩
  · intro c hc hfile
    subst hc
    simp [find_soffice, hfile]
  · intro hnot
    cases hc : candidate with
    | none => simp [find_soffice]
    | some c =>
        simp [find_soffice, hnot c hc]
  · intro p hp
    cases hc : candidate with
    | none =>
        cases hw : env.whichSoffice with
        | none => simp [find_soffice, hc, hw] at hp
        | some r =>
            simp [find_soffice, hc, hw] at hp
            subst hp
            exact hwhich r hw
    | some c =>
        by_cases hfile : fs.isFile (env.resolveUser c) = true
        · simp [find_soffice, hc, hfile] at hp
          subst hp
          exact hfile
        · cases hw : env.whichSoffice with
          | none => simp [find_soffice, hc, hw, hfile] at hp
          | some r =>
              simp [find_soffice, hc, hw, hfile] at hp
              subst hp
              exact hwhich r hw

/-- Witness for C6: the candidate branch at a concrete input. -/
theorem find_soffice_locator_witness :
    find_soffice envNoSoffice sampleFs (some sampleInput) = .ok sampleInput :=
  (find_soffice_locator envNoSoffice sampleFs (some sampleInput)
      (fun p h => by simp [envNoSoffice] at h)).1
    sampleInput rfl (by decide)

/-- C10: a missing input file makes `convert` fail with the Input Not
Found error before the mutual-exclusion check and before any executable
lookup, for every combination of the other arguments; no process is
spawned and the filesystem is untouched. -/
theorem convert_missing_input_first (env : Env) (fs : FS) (input : FsPath)
    (output_file output_dir soffice_path : Option FsPath) (timeout : Option Nat)
    (extra_args : Option (List String))
    (h : fs.pathExists (env.resolveUser input) = false) :
    convert env fs input output_file output_dir soffice_path timeout extra_args =
      { result := .error (.inputNotFound
          ("Input file does not exist: " ++ pathToString (env.resolveUser input))),
        fs := fs,
        spawned := [] } := by
  simp [convert, h]

/-- Witness for C10: both outputs supplied, input missing, the error is
Input Not Found. -/
theorem convert_missing_input_first_witness :
    sampleFs.pathExists (envStubOk.resolveUser ["tmp", "missing.pptx"]) = false ∧
    convert envStubOk sampleFs ["tmp", "missing.pptx"]
        (some ["tmp", "out.pdf"]) (some ["tmp"]) none none none =
      { result := .error (.inputNotFound ("Input file does not exist: /tmp/missing.pptx")),
        fs := sampleFs,
        spawned := [] } :=
  ⟨by decide,
   by
    have h := convert_missing_input_first envStubOk sampleFs ["tmp", "missing.pptx"]
      (some ["tmp", "out.pdf"]) (some ["tmp"]) none none none (by decide)
    simpa using h⟩

/-- Counterexample to C2 as stated: with a missing input file, supplying
both an explicit output path and an output directory fails with Input Not
Found, not with Invalid Arguments. -/
theorem convert_both_outputs_counterexample :
    (convert envStubOk sampleFs ["tmp", "missing.pptx"]
        (some ["tmp", "out.pdf"]) (some ["tmp"]) none none none).result =
      .error (.inputNotFound ("Input file does not exist: /tmp/missing.pptx")) := by
  decide

/-- C2 (amended): whenever the input file exists, supplying both an
explicit output path and an output directory fails with the Invalid
Arguments error, for all non-empty combinations; no process is spawned. -/
theorem convert_both_outputs_rejected (env : Env) (fs : FS) (input : FsPath)
    (output_file output_dir : FsPath) (soffice_path : Option FsPath)
    (timeout : Option Nat) (extra_args : Option (List String))
    (hin : fs.pathExists (env.resolveUser input) = true) :
    convert env fs input (some output_file) (some output_dir) soffice_path timeout extra_args =
      { result := .error (.invalidArgs ("Specify either output_file or output_dir, not both.")),
        fs := fs,
        spawned := [] } := by
  simp [convert, hin]

/-- Witness for C2 (amended) at a concrete input. -/
theorem convert_both_outputs_rejected_witness :
    sampleFs.pathExists (envStubOk.resolveUser sampleInput) = true ∧
    convert envStubOk sampleFs sampleInput
        (some ["tmp", "out.pdf"]) (some ["tmp"]) none none none =
      { result := .error (.invalidArgs ("Specify either output_file or output_dir, not both.")),
        fs := sampleFs,
        spawned := [] } :=
  ⟨by decide,
   convert_both_outputs_rejected envStubOk sampleFs sampleInput
     ["tmp", "out.pdf"] ["tmp"] none none none (by decide)⟩

/-- Looking up a key in a list purged of that key finds nothing. -/
theorem findContent_eraseFile_self (p : FsPath) (l : List (FsPath × String)) :
    findContent p (eraseFile p l) = none := by
  induction l with
  | nil => rfl
  | cons e rest ih =>
      obtain ⟨q, c⟩ := e
      by_cases h : q = p
      · simp [eraseFile, h, ih]
      · simp [eraseFile, findContent, h, ih]

/-- Purging one key leaves the lookup of any other key unchanged. -/
theorem findContent_eraseFile_ne (p q : FsPath) (l : List (FsPath × String))
    (h : p ≠ q) : findContent p (eraseFile q l) = findContent p l := by
  induction l with
  | nil => rfl
  | cons e rest ih =>
      obtain ⟨r, c⟩ := e
      by_cases hr : r = q <;> by_cases hp : r = p <;>
        simp_all [eraseFile, findContent]

/-- After a rename, the destination holds the source's old content. -/
theorem fileContent_rename_dst (fs : FS) (src dst : FsPath) (c : String)
    (h : fs.fileContent src = some c) :
    (fs.rename src dst).fileContent dst = some c := by
  have h' : findContent src fs.files = some c := h
  simp [FS.rename, FS.fileContent, h', FS.writeFile, findContent]

/-- After a rename to a different path, the source file is gone. -/
theorem fileContent_rename_src (fs : FS) (src dst : FsPath) (c : String)
    (h : fs.fileContent src = some c) (hne : src ≠ dst) :
    (fs.rename src dst).fileContent src = none := by
  have h' : findContent src fs.files = some c := h
  simp only [FS.rename, FS.fileContent, h', FS.writeFile, findContent]
  rw [if_neg (fun hds : dst = src => hne hds.symm),
    findContent_eraseFile_ne src dst _ hne, findContent_eraseFile_self]

/-- C7: when the locator fails, `convert` propagates its error unchanged
and never spawns a process. -/
theorem convert_locator_failure (env : Env) (fs : FS) (input : FsPath)
    (output_file output_dir soffice_path : Option FsPath) (timeout : Option Nat)
    (extra_args : Option (List String)) (e : ConvError)
    (hin : fs.pathExists (env.resolveUser input) = true)
    (hboth : (output_file.isSome && output_dir.isSome) = false)
    (hloc : find_soffice env fs soffice_path = .error e) :
    convert env fs input output_file output_dir soffice_path timeout extra_args =
      { result := .error e, fs := fs, spawned := [] } := by
  simp [convert, hin, hboth, hloc]

/-- Witness for C7: no override, nothing on the `PATH`. -/
theorem convert_locator_failure_witness :
    convert envNoSoffice sampleFs sampleInput none none none none none =
      { result := .error (.sofficeNotFound sofficeNotFoundMsg),
        fs := sampleFs,
        spawned := [] } :=
  convert_locator_failure envNoSoffice sampleFs sampleInput none none none none none
    (.sofficeNotFound sofficeNotFoundMsg) (by decide) (by decide) (by decide)

/-- C1: with no explicit output path, an existing input, and a process run
that succeeds leaving `<stem>.pdf` in the working output directory,
`convert` returns an outcome whose output path is the working directory
(the resolved caller-supplied output directory, or the input's own
directory when omitted) joined with the input's stem plus `.pdf`, and
whose command contains `--headless`. -/
theorem convert_default_output_correct (env : Env) (fs0 : FS) (input : FsPath)
    (output_dir soffice_path : Option FsPath) (timeout : Option Nat)
    (extra_args : Option (List String)) (exe : FsPath) (stdout stderr : String)
    (fs2 : FS)
    (hin : fs0.pathExists (env.resolveUser input) = true)
    (hloc : find_soffice env fs0 soffice_path = .ok exe)
    (hrun : env.run
        (_build_command ⟨exe, timeout, extra_args⟩ (env.resolveUser input)
          (workingDir env (env.resolveUser input) none output_dir))
        (fs0.mkdirParents (workingDir env (env.resolveUser input) none output_dir))
        = (.exitOk stdout stderr, fs2))
    (hpdf : fs2.pathExists (plannedOutputPath env (env.resolveUser input) none output_dir)
        = true) :
    ∃ r, (convert env fs0 input none output_dir soffice_path timeout extra_args).result
        = .ok r ∧
      r.output_path = workingDir env (env.resolveUser input) none output_dir
          ++ [defaultPdfName (env.resolveUser input)] ∧
      "--headless" ∈ r.command := by
  refine ⟨⟨env.resolveUser input,
    workingDir env (env.resolveUser input) none output_dir
      ++ [defaultPdfName (env.resolveUser input)],
    _build_command ⟨exe, timeout, extra_args⟩ (env.resolveUser input)
      (workingDir env (env.resolveUser input) none output_dir),
    stdout, stderr⟩, ?_, rfl, headless_mem_build_command _ _ _⟩
  simp [convert, hin, hloc, hrun, finishConvert, plannedOutputPath] at hpdf ⊢
  simp [hpdf]

/-- Witness for C1: the stubbed run writes `/tmp/out/slides.pdf` into the
requested output directory. -/
theorem convert_default_output_correct_witness :
    ∃ r, (convert envStubOk sampleFs sampleInput none (some ["tmp", "out"]) none none none).result
        = .ok r ∧
      r.output_path = workingDir envStubOk (envStubOk.resolveUser sampleInput) none
          (some ["tmp", "out"]) ++ [defaultPdfName (envStubOk.resolveUser sampleInput)] ∧
      "--headless" ∈ r.command :=
  convert_default_output_correct envStubOk sampleFs sampleInput (some ["tmp", "out"])
    none none none ["usr", "bin", "soffice"] "ok" ""
    (sampleFs.mkdirParents ["tmp", "out"] |>.writeFile ["tmp", "out", "slides.pdf"] "pdf")
    (by decide) (by decide) (by decide) (by decide)

/-- C8: a non-zero exit of the external process makes `convert` fail with
Conversion Failed, whose message contains the joined command line, the
captured stdout and the captured stderr. -/
theorem convert_nonzero_exit_failure (env : Env) (fs0 : FS) (input : FsPath)
    (output_file output_dir soffice_path : Option FsPath) (timeout : Option Nat)
    (extra_args : Option (List String)) (exe : FsPath) (rc : Int)
    (stdout stderr : String) (fs2 : FS)
    (hin : fs0.pathExists (env.resolveUser input) = true)
    (hboth : (output_file.isSome && output_dir.isSome) = false)
    (hloc : find_soffice env fs0 soffice_path = .ok exe)
    (hrun : env.run
        (_build_command ⟨exe, timeout, extra_args⟩ (env.resolveUser input)
          (workingDir env (env.resolveUser input) output_file output_dir))
        (fs0.mkdirParents (workingDir env (env.resolveUser input) output_file output_dir))
        = (.exitErr rc stdout stderr, fs2)) :
    (convert env fs0 input output_file output_dir soffice_path timeout extra_args).result
        = .error (.conversionFailed (conversionFailedMsg
            (_build_command ⟨exe, timeout, extra_args⟩ (env.resolveUser input)
              (workingDir env (env.resolveUser input) output_file output_dir))
            stdout stderr)) ∧
    ∃ s1 s2 s3 s4, conversionFailedMsg
        (_build_command ⟨exe, timeout, extra_args⟩ (env.resolveUser input)
          (workingDir env (env.resolveUser input) output_file output_dir))
        stdout stderr
      = s1 ++ joinSpace (_build_command ⟨exe, timeout, extra_args⟩ (env.resolveUser input)
          (workingDir env (env.resolveUser input) output_file output_dir))
          ++ s2 ++ stdout ++ s3 ++ stderr ++ s4 := by
  constructor
  · simp [convert, hin, hboth, hloc, hrun]
  · refine ⟨"LibreOffice failed to convert the presentation.\n" ++ "Command: ",
      "\n" ++ "Stdout: ", "\n" ++ "Stderr: ", "", ?_⟩
    simp [conversionFailedMsg, string_append_assoc, String.append_empty]

/-- Witness for C8: the stubbed process exits 1 with stderr `boom`. -/
theorem convert_nonzero_exit_failure_witness :
    (convert envFails sampleFs sampleInput none none none none none).result
        = .error (.conversionFailed (conversionFailedMsg
            (_build_command ⟨["usr", "bin", "soffice"], none, none⟩
              (envFails.resolveUser sampleInput)
              (workingDir envFails (envFails.resolveUser sampleInput) none none))
            "" "boom")) ∧
    ∃ s1 s2 s3 s4, conversionFailedMsg
        (_build_command ⟨["usr", "bin", "soffice"], none, none⟩
          (envFails.resolveUser sampleInput)
          (workingDir envFails (envFails.resolveUser sampleInput) none none))
        "" "boom"
      = s1 ++ joinSpace (_build_command ⟨["usr", "bin", "soffice"], none, none⟩
          (envFails.resolveUser sampleInput)
          (workingDir envFails (envFails.resolveUser sampleInput) none none))
          ++ s2 ++ "" ++ s3 ++ "boom" ++ s4 :=
  convert_nonzero_exit_failure envFails sampleFs sampleInput none none none none none
    ["usr", "bin", "soffice"] 1 "" "boom" (sampleFs.mkdirParents ["tmp"])
    (by decide) (by decide) (by decide) (by decide)

/-- An environment whose converter process writes directly to
`/tmp/custom.pdf` and nothing else. -/
def envWritesExplicit : Env :=
  ⟨id, id, some ["usr", "bin", "soffice"],
   fun _ fs => (.exitOk ("") (""), fs.writeFile ["tmp", "custom.pdf"] "pdf")⟩

/-- An environment whose converter process succeeds but writes nothing. -/
def envWritesNothing : Env :=
  ⟨id, id, some ["usr", "bin", "soffice"], fun _ fs => (.exitOk ("") (""), fs)⟩

/-- Counterexample to C3 as stated: with the explicit output path
`/tmp/custom.pdf`, the process exits with status zero, the expected
default output `/tmp/slides.pdf` is missing, and yet `convert` succeeds,
because the converter wrote straight to the explicit path. -/
theorem convert_missing_default_counterexample :
    (envWritesExplicit.run
        (_build_command ⟨["usr", "bin", "soffice"], none, none⟩ sampleInput ["tmp"])
        (sampleFs.mkdirParents ["tmp"])).1 = .exitOk ("") ("") ∧
    ((convert envWritesExplicit sampleFs sampleInput (some ["tmp", "custom.pdf"])
        none none none none).fs.pathExists
      (["tmp"] ++ [defaultPdfName sampleInput]) = false) ∧
    (convert envWritesExplicit sampleFs sampleInput (some ["tmp", "custom.pdf"])
        none none none none).result
      = .ok ⟨sampleInput, ["tmp", "custom.pdf"],
          _build_command ⟨["usr", "bin", "soffice"], none, none⟩ sampleInput ["tmp"],
          "", ""⟩ := by
  refine ⟨by decide, by decide, by decide⟩

/-- C3 (amended): after a zero-status exit, `convert` checks the resolved
output path and then the default output path (working directory + input
stem + `.pdf`); when no file exists at either, it fails with Conversion
Failed instead of succeeding.  When no explicit output path is supplied
the resolved output path is itself the default path, so a missing default
alone causes the failure. -/
theorem convert_missing_pdf_fails (env : Env) (fs0 : FS) (input : FsPath)
    (output_file output_dir soffice_path : Option FsPath) (timeout : Option Nat)
    (extra_args : Option (List String)) (exe : FsPath) (stdout stderr : String)
    (fs2 : FS)
    (hin : fs0.pathExists (env.resolveUser input) = true)
    (hboth : (output_file.isSome && output_dir.isSome) = false)
    (hloc : find_soffice env fs0 soffice_path = .ok exe)
    (hrun : env.run
        (_build_command ⟨exe, timeout, extra_args⟩ (env.resolveUser input)
          (workingDir env (env.resolveUser input) output_file output_dir))
        (fs0.mkdirParents (workingDir env (env.resolveUser input) output_file output_dir))
        = (.exitOk stdout stderr, fs2))
    (hplanned : fs2.pathExists
        (plannedOutputPath env (env.resolveUser input) output_file output_dir) = false)
    (hdefault : fs2.pathExists
        (workingDir env (env.resolveUser input) output_file output_dir
          ++ [defaultPdfName (env.resolveUser input)]) = false) :
    (convert env fs0 input output_file output_dir soffice_path timeout extra_args).result
      = .error (.conversionFailed missingPdfMsg) := by
  simp [convert, hin, hboth, hloc, hrun, finishConvert, hplanned, hdefault]

/-- Witness for C3 (amended): the stubbed process succeeds without writing
any file, and `convert` reports Conversion Failed. -/
theorem convert_missing_pdf_fails_witness :
    (convert envWritesNothing sampleFs sampleInput none none none none none).result
      = .error (.conversionFailed missingPdfMsg) :=
  convert_missing_pdf_fails envWritesNothing sampleFs sampleInput none none none none
    none ["usr", "bin", "soffice"] "" "" (sampleFs.mkdirParents ["tmp"])
    (by decide) (by decide) (by decide) (by decide) (by decide) (by decide)

/-- An environment for the rename scenario: the converter writes the
default-named `/tmp/custom/slides.pdf` instead of the requested file. -/
def envRenameCase : Env :=
  ⟨id, id, some ["usr", "bin", "soffice"],
   fun _ fs => (.exitOk ("") (""), fs.writeFile ["tmp", "custom", "slides.pdf"] "pdf")⟩

/-- C4: when an explicit output path is requested and the converter
produced the default-named file elsewhere, the produced file is renamed to
the explicit path — overwriting anything there, content preserved — the
source of the rename is gone, and the outcome reports the explicit path. -/
theorem convert_renames_to_explicit (env : Env) (fs0 : FS) (input : FsPath)
    (out_file : FsPath) (soffice_path : Option FsPath) (timeout : Option Nat)
    (extra_args : Option (List String)) (exe : FsPath) (stdout stderr : String)
    (fs2 : FS) (content : String)
    (hin : fs0.pathExists (env.resolveUser input) = true)
    (hloc : find_soffice env fs0 soffice_path = .ok exe)
    (hrun : env.run
        (_build_command ⟨exe, timeout, extra_args⟩ (env.resolveUser input)
          ((env.resolveUser out_file).dropLast))
        (fs0.mkdirParents ((env.resolveUser out_file).dropLast))
        = (.exitOk stdout stderr, fs2))
    (hmiss : fs2.pathExists (env.resolveUser out_file) = false)
    (hcand : fs2.fileContent
        ((env.resolveUser out_file).dropLast ++ [defaultPdfName (env.resolveUser input)])
        = some content)
    (hne : (env.resolveUser out_file).dropLast ++ [defaultPdfName (env.resolveUser input)]
        ≠ env.resolveNoUser out_file) :
    (convert env fs0 input (some out_file) none soffice_path timeout extra_args).result
      = .ok ⟨env.resolveUser input, env.resolveNoUser out_file,
          _build_command ⟨exe, timeout, extra_args⟩ (env.resolveUser input)
            ((env.resolveUser out_file).dropLast),
          stdout, stderr⟩ ∧
    (convert env fs0 input (some out_file) none soffice_path timeout
        extra_args).fs.fileContent (env.resolveNoUser out_file) = some content ∧
    (convert env fs0 input (some out_file) none soffice_path timeout
        extra_args).fs.fileContent
      ((env.resolveUser out_file).dropLast ++ [defaultPdfName (env.resolveUser input)])
      = none := by
  have hpe : fs2.pathExists
      ((env.resolveUser out_file).dropLast ++ [defaultPdfName (env.resolveUser input)])
      = true := by
    simp [FS.pathExists, FS.isFile, hcand]
  have hconv : convert env fs0 input (some out_file) none soffice_path timeout extra_args
      = { result := .ok ⟨env.resolveUser input, env.resolveNoUser out_file,
            _build_command ⟨exe, timeout, extra_args⟩ (env.resolveUser input)
              ((env.resolveUser out_file).dropLast),
            stdout, stderr⟩,
          fs := fs2.rename
            ((env.resolveUser out_file).dropLast ++ [defaultPdfName (env.resolveUser input)])
            (env.resolveNoUser out_file),
          spawned := [_build_command ⟨exe, timeout, extra_args⟩ (env.resolveUser input)
            ((env.resolveUser out_file).dropLast)] } := by
    simp [convert, hin, hloc, workingDir, plannedOutputPath] at hrun ⊢
    simp [hrun, finishConvert, hmiss, hpe, hne]
  refine ⟨by rw [hconv], ?_, ?_⟩
  · rw [hconv]
    exact fileContent_rename_dst fs2 _ _ content hcand
  · rw [hconv]
    exact fileContent_rename_src fs2 _ _ content hcand hne

/-- Witness for C4: the scenario of the rename test — input
`/tmp/slides.pptx`, requested output `/tmp/custom/presentation.pdf`, the
stub writes `/tmp/custom/slides.pdf`. -/
theorem convert_renames_to_explicit_witness :
    (convert envRenameCase sampleFs sampleInput (some ["tmp", "custom", "presentation.pdf"])
        none none none none).result
      = .ok ⟨sampleInput, ["tmp", "custom", "presentation.pdf"],
          _build_command ⟨["usr", "bin", "soffice"], none, none⟩ sampleInput
            ["tmp", "custom"], "", ""⟩ ∧
    (convert envRenameCase sampleFs sampleInput (some ["tmp", "custom", "presentation.pdf"])
        none none none none).fs.fileContent ["tmp", "custom", "presentation.pdf"]
      = some ("pdf") ∧
    (convert envRenameCase sampleFs sampleInput (some ["tmp", "custom", "presentation.pdf"])
        none none none none).fs.fileContent ["tmp", "custom", "slides.pdf"] = none := by
  have h := convert_renames_to_explicit envRenameCase sampleFs sampleInput
    ["tmp", "custom", "presentation.pdf"] none none none ["usr", "bin", "soffice"] "" ""
    ((sampleFs.mkdirParents ["tmp", "custom"]).writeFile ["tmp", "custom", "slides.pdf"] "pdf")
    "pdf" (by decide) (by decide) (by decide) (by decide) (by decide) (by decide)
  simpa using h

/-- C9: whenever the underlying conversion fails with any error, the CLI
entry point returns a non-zero exit code and prints no output path. -/
theorem main_failure_exit (env : Env) (fs : FS) (input : FsPath)
    (output outdir soffice : Option FsPath) (timeout : Option Nat)
    (extra_args : Option (List String)) (e : ConvError)
    (h : (convert env fs input output outdir soffice timeout extra_args).result
      = .error e) :
    (main env fs input output outdir soffice timeout extra_args).1 ≠ 0 ∧
    (main env fs input output outdir soffice timeout extra_args).2 = none := by
  simp [main, h]

/-- Witness for C9: a missing input file makes `main` exit 2 printing
nothing. -/
theorem main_failure_exit_witness :
    (main envStubOk sampleFs ["tmp", "missing.pptx"] none none none none none).1 ≠ 0 ∧
    (main envStubOk sampleFs ["tmp", "missing.pptx"] none none none none none).2 = none :=
  main_failure_exit envStubOk sampleFs ["tmp", "missing.pptx"] none none none none none
    (.inputNotFound ("Input file does not exist: /tmp/missing.pptx")) (by decide)

end Ppt2Pdf
